import Mathlib

/-!
Verification of the Debtreviewserver REST adapter (src/Debtreviewserver.js).

The server exposes two endpoints:
  * `POST /api/clients/add`    — validate a client submission, reject duplicate
    phone numbers, insert a row, answer with a structured JSON envelope;
  * `GET /api/clients/export`  — read all rows and serialize them to CSV.

We embed the request handlers as pure Lean functions.  The request body is a
record of optional string fields (the fields destructured from `req.body`),
the clients table is a list of rows, and the nondeterministic outcomes of the
datastore (query errors, the generated `insertId`) and of the CSV file write
are explicit parameters.  The module-level `csvWriter` singleton is stateful:
`csv-writer` sets an internal append flag after its first successful write,
so later exports append records to the accumulated `clients.csv` instead of
rewriting it; the export handler therefore threads an explicit writer state.
JSON response bodies are modelled as ordered association lists, preserving
the key order of the object literals in the source so that the exact field
set of each response can be stated.
-/

namespace Debtreview

/-- A JSON value, sufficient for the response bodies the server builds. -/
inductive JsonVal where
  | null
  | num (n : Int)
  | str (s : String)
  | arr (xs : List JsonVal)
  | obj (fields : List (String × JsonVal))

/-- An HTTP response: status code plus the JSON body as an ordered list of
key/value pairs (the order of the object literal in the source). -/
structure HttpResponse where
  status : Nat
  body : List (String × JsonVal)

/-- The keys of a response body, in order. -/
def bodyKeys (r : HttpResponse) : List String := r.body.map Prod.fst

/-- Look up a top-level field of the response body. -/
def bodyField (r : HttpResponse) (k : String) : Option JsonVal :=
  (r.body.find? (fun p => p.fst == k)).map Prod.snd

/-- The client submission: the ten fields destructured from `req.body` in the
insert handler.  A `none` models an absent JSON field.  We restrict bodies to
string-valued fields; this is the shape every documented example uses, and the
one validator it affects (`isString` on `offerID`) then holds trivially. -/
structure Submission where
  title : Option String
  name : Option String
  surname : Option String
  phone_number : Option String
  id_number : Option String
  email : Option String
  notes : Option String
  optindate : Option String
  preferred_time : Option String
  offerID : Option String

/-- A row of the `clients` table: the ten inserted columns plus the
auto-generated `leadId`.  The INSERT passes absent fields through as SQL
NULL, kept here as `none`. -/
structure Row where
  title : Option String
  name : Option String
  surname : Option String
  phone_number : Option String
  id_number : Option String
  email : Option String
  notes : Option String
  optindate : Option String
  preferred_time : Option String
  offerID : Option String
  leadId : Nat

/-- The clients table. -/
abbrev Table := List Row

/- ## Validators

`express-validator` hands each body value to a `validator.js` predicate; an
absent field reaches a non-`optional` validator as the empty string. -/

/-- `body(f).notEmpty()`: the field is present and not the empty string. -/
def notEmpty : Option String → Bool
  | none => false
  | some s => !s.data.isEmpty

def allDigits (cs : List Char) : Bool := cs.all Char.isDigit

/-- Nine digits, the `\d{9}` tail of the mobile-phone patterns. -/
def nineDigits (cs : List Char) : Bool := cs.length == 9 && allDigits cs

/-- `body(f).isMobilePhone()` — `validator.js` `isMobilePhone` with the
default locale `any` tests the value against a union of per-locale patterns.
We model the union restricted to the South African pattern
`(\+?27|0)\d{9}` (locale `en-ZA`), the locale the repository's documented
examples use; the handler only ever branches on the Boolean outcome. -/
def isMobilePhone : Option String → Bool
  | none => false
  | some s =>
    match s.data with
    | '+' :: '2' :: '7' :: rest => nineDigits rest
    | '2' :: '7' :: rest => nineDigits rest
    | '0' :: rest => nineDigits rest
    | _ => false

/-- `body(f).isLength({min: 13, max: 13})`: the value has exactly 13
characters.  `validator.js` counts a surrogate pair as one character, which
matches Lean's code-point `String.length`.  Only the length is inspected;
the characters themselves are never examined. -/
def isLength13 : Option String → Bool
  | none => false
  | some s => s.data.length == 13

/-- Split a character list at every occurrence of a separator. -/
def splitOnChar (c : Char) : List Char → List (List Char)
  | [] => [[]]
  | d :: rest =>
    if d == c then [] :: splitOnChar c rest
    else
      match splitOnChar c rest with
      | [] => [[d]]
      | g :: gs => (d :: g) :: gs

/-- `body(f).isEmail()` — modelled restricted to its core shape: one `@`
separating a non-empty local part from a non-empty domain that contains a
dot, neither leading nor trailing (`validator.js` requires a TLD by
default). -/
def isEmail : Option String → Bool
  | none => false
  | some s =>
    match splitOnChar '@' s.data with
    | [localPart, domain] =>
      !localPart.isEmpty && !domain.isEmpty &&
      domain.any (fun c => c == '.') &&
      !(domain.head? == some '.') && !(domain.getLast? == some '.')
    | _ => false

def digitVal (c : Char) : Nat := c.toNat - 48

/-- `validator.js` `isISO8601`, modelled restricted to the calendar-date form
`YYYY-MM-DD` that the repository documents (month 01–12, day 01–31). -/
def isISO8601 (s : String) : Bool :=
  match s.data with
  | [y1, y2, y3, y4, h1, m1, m2, h2, d1, d2] =>
    y1.isDigit && y2.isDigit && y3.isDigit && y4.isDigit &&
    h1 == '-' && h2 == '-' &&
    m1.isDigit && m2.isDigit && d1.isDigit && d2.isDigit &&
    (1 ≤ digitVal m1 * 10 + digitVal m2 && digitVal m1 * 10 + digitVal m2 ≤ 12) &&
    (1 ≤ digitVal d1 * 10 + digitVal d2 && digitVal d1 * 10 + digitVal d2 ≤ 31)
  | _ => false

/-- The source's regex for `preferred_time`:
`^([01]\d|2[0-3]):([0-5]\d):([0-5]\d)$`. -/
def matchesTimeRegex (s : String) : Bool :=
  match s.data with
  | [h1, h2, c1, m1, m2, c2, s1, s2] =>
    (((h1 == '0' || h1 == '1') && h2.isDigit) ||
      (h1 == '2' && '0' ≤ h2 && h2 ≤ '3')) &&
    c1 == ':' && ('0' ≤ m1 && m1 ≤ '5') && m2.isDigit &&
    c2 == ':' && ('0' ≤ s1 && s1 ≤ '5') && s2.isDigit
  | _ => false

/-- `body('offerID').isString()`: in this model every present body value is a
string, so the check holds for any present value. -/
def isStringVal (_ : String) : Bool := true

/-- `.optional()`: an absent field skips its validator. -/
def optionalValid (f : String → Bool) : Option String → Bool
  | none => true
  | some s => f s

/-- The validation chain of `POST /api/clients/add`, in source order.  The
result models `validationResult(req).errors.array()`, which collects the
message of every failing rule, not just the first. -/
def validationErrors (sub : Submission) : List String :=
  (if notEmpty sub.title then [] else ["Title is required"]) ++
  (if notEmpty sub.name then [] else ["Name is required"]) ++
  (if notEmpty sub.surname then [] else ["Surname is required"]) ++
  (if isMobilePhone sub.phone_number then [] else ["Invalid phone number"]) ++
  (if isLength13 sub.id_number then [] else ["ID number must be 13 digits"]) ++
  (if isEmail sub.email then [] else ["Invalid email"]) ++
  (if optionalValid isISO8601 sub.optindate then [] else ["Invalid opt-in date"]) ++
  (if optionalValid matchesTimeRegex sub.preferred_time then []
   else ["Invalid preferred time format"]) ++
  (if optionalValid isStringVal sub.offerID then [] else ["OfferID must be a string"])

/- ## The insert handler -/

/-- Nondeterministic datastore outcomes consumed by one run of the insert
handler: whether the duplicate-check SELECT errors, and the result of the
INSERT (`none` = query error, `some id` = success with `results.insertId`
equal to `id`). -/
structure DbEnv where
  lookupFails : Bool
  insertResult : Option Nat

/-- The shared error body `{code: -100, response: 'Internal error',
info: {error: 'Database error'}, leadId: null, processTime: 0, timestamp}`. -/
def dbErrorBody (now : String) : List (String × JsonVal) :=
  [("code", .num (-100)), ("response", .str "Internal error"),
   ("info", .obj [("error", .str "Database error")]),
   ("leadId", .null), ("processTime", .num 0), ("timestamp", .str now)]

/-- The row the INSERT creates from a submission, with the generated id. -/
def mkRow (sub : Submission) (id : Nat) : Row :=
  { title := sub.title, name := sub.name, surname := sub.surname,
    phone_number := sub.phone_number, id_number := sub.id_number,
    email := sub.email, notes := sub.notes, optindate := sub.optindate,
    preferred_time := sub.preferred_time, offerID := sub.offerID,
    leadId := id }

/-- `SELECT * FROM clients WHERE phone_number = ?`: the rows whose
`phone_number` column equals the (string) parameter. -/
def duplicateRows (table : Table) (pn : Option String) : List Row :=
  table.filter (fun r => r.phone_number == pn)

/-- `POST /api/clients/add`.  Returns the HTTP response together with the
table after the request.  Mirrors the handler in source order: validation,
duplicate lookup, INSERT; the INSERT callback builds the success object,
overwrites it wholesale on error, and derives the status from
`response.code === 1 ? 201 : 400`. -/
def addClient (sub : Submission) (table : Table) (env : DbEnv) (now : String) :
    HttpResponse × Table :=
  let errs := validationErrors sub
  if !errs.isEmpty then
    ({ status := 400,
       body := [("code", .num (-5)), ("response", .str "Validation error"),
                ("info", .arr (errs.map .str)),
                ("leadId", .null), ("processTime", .num 0),
                ("timestamp", .str now)] }, table)
  else if env.lookupFails then
    ({ status := 500, body := dbErrorBody now }, table)
  else if (duplicateRows table sub.phone_number).length > 0 then
    ({ status := 400,
       body := [("code", .num (-2)), ("response", .str "Invalid Lead"),
                ("description", .str "Duplicate"),
                ("leadId", .null), ("processTime", .num 0),
                ("timestamp", .str now)] }, table)
  else
    match env.insertResult with
    | none =>
      -- err branch replaces the response object; code -100 ≠ 1 gives status 400
      ({ status := 400, body := dbErrorBody now }, table)
    | some id =>
      ({ status := 201,
         body := [("code", .num 1), ("response", .str "OK"),
                  ("info", .arr []), ("leadId", .num (Int.ofNat id)),
                  ("processTime", .num 0), ("timestamp", .str now)] },
       table ++ [mkRow sub id])

/- ## The export handler and CSV serialization -/

/-- The `csvWriter` header configuration: field id paired with column title,
in source order. -/
def csvHeader : List (String × String) :=
  [("title", "Title"), ("name", "Name"), ("surname", "Surname"),
   ("phone_number", "Phone Number"), ("id_number", "ID Number"),
   ("email", "Email"), ("notes", "Notes"), ("optindate", "Opt-in Date"),
   ("preferred_time", "Preferred Time"), ("offerID", "Offer ID")]

/-- The raw cell value `csv-writer` reads off a record for one header id:
`null`/`undefined` becomes the empty string. -/
def cellValue : Option String → String
  | none => ""
  | some s => s

/-- The ten cells of a data row, in header order. -/
def rowCells (r : Row) : List String :=
  [cellValue r.title, cellValue r.name, cellValue r.surname,
   cellValue r.phone_number, cellValue r.id_number, cellValue r.email,
   cellValue r.notes, cellValue r.optindate, cellValue r.preferred_time,
   cellValue r.offerID]

/-- Whether `csv-writer`'s default field stringifier must quote a field:
it contains the delimiter, a quote or a newline. -/
def fieldNeedsQuote (s : String) : Bool :=
  s.data.any (fun c => c == ',' || c == '"' || c == '\n')

/-- Double every quote character, the `.replace(/"/g, quote + quote)` step. -/
def escapeQuotes : List Char → List Char
  | [] => []
  | c :: rest =>
    if c == '"' then '"' :: '"' :: escapeQuotes rest
    else c :: escapeQuotes rest

/-- `csv-writer`'s default field stringifier: a field is wrapped in double
quotes, with inner quotes doubled, when it contains the delimiter, a quote
or a newline. -/
def stringifyField (s : String) : String :=
  if fieldNeedsQuote s then "\"" ++ String.mk (escapeQuotes s.data) ++ "\""
  else s

/-- Join strings with a separator. -/
def joinWith (sep : String) : List String → String
  | [] => ""
  | [x] => x
  | x :: y :: ys => x ++ sep ++ joinWith sep (y :: ys)

/-- One serialized CSV line from a list of cells. -/
def csvLine (cells : List String) : String :=
  joinWith "," (cells.map stringifyField)

/-- The serialized header line. -/
def csvHeaderLine : String := csvLine (csvHeader.map Prod.snd)

/-- The serialized data line for one row. -/
def csvDataLine (r : Row) : String := csvLine (rowCells r)

/-- Concatenate lines, terminating each with the record delimiter `\n`. -/
def concatLines : List String → String
  | [] => ""
  | l :: ls => l ++ "\n" ++ concatLines ls

/-- The state of the module-level `csvWriter` singleton (created once at
line 324 and shared by every export request): `csv-writer`'s internal
append flag, and the accumulated content of the `clients.csv` file it
writes.  The flag starts false; the first successful `writeRecords` writes
with flag `w` (truncating the file) and sets it, so every later call
appends with flag `a`. -/
structure CsvWriterState where
  append : Bool
  file : String

/-- `csvWriter.writeRecords(rows)`: the written string is the header string
plus the records string, where the header string is empty once the append
flag is set.  With the flag clear the file is truncated and receives
header + records; with it set the records are appended to the existing
file.  A successful write sets the flag. -/
def writeRecords (st : CsvWriterState) (rows : List Row) : CsvWriterState :=
  if st.append then
    { append := true, file := st.file ++ concatLines (rows.map csvDataLine) }
  else
    { append := true,
      file := csvHeaderLine ++ "\n" ++ concatLines (rows.map csvDataLine) }

/-- The export CSV as the spec describes it (spec-side definition, for
comparison with `writeRecords`): the fixed header line followed by one data
line per table row. -/
def specExportCsv (table : Table) : String :=
  concatLines (csvHeaderLine :: table.map csvDataLine)

/-- Outcome of `GET /api/clients/export`: either the file download
(`res.download(..., 'clients.csv')`) or a JSON error response. -/
inductive ExportResult where
  | file (name : String) (content : String)
  | jsonResp (r : HttpResponse)

/-- The CSV-failure error body. -/
def csvErrorBody (now : String) : List (String × JsonVal) :=
  [("code", .num (-100)), ("response", .str "Internal error"),
   ("info", .obj [("error", .str "CSV writing error")]),
   ("leadId", .null), ("processTime", .num 0), ("timestamp", .str now)]

/-- `GET /api/clients/export`.  `st` is the shared writer's state before the
request; `readFails` models an error from `SELECT * FROM clients`;
`csvWriteFails` a rejection of `csvWriter.writeRecords` (which then leaves
the writer state unchanged — the append flag is only set after a successful
write).  On success `res.download` streams the file the writer just wrote. -/
def exportClients (table : Table) (st : CsvWriterState)
    (readFails csvWriteFails : Bool) (now : String) :
    ExportResult × CsvWriterState :=
  if readFails then
    (.jsonResp { status := 500, body := dbErrorBody now }, st)
  else if csvWriteFails then
    (.jsonResp { status := 500, body := csvErrorBody now }, st)
  else
    let st2 := writeRecords st table
    (.file "clients.csv" st2.file, st2)

/-- The downloaded file content of an export outcome, when it is one. -/
def exportedFile : ExportResult → Option String
  | .file _ c => some c
  | .jsonResp _ => none

end Debtreview

namespace Debtreview

/- ## Shared concrete inputs for witnesses -/

/-- The fully populated example submission from the API documentation. -/
def sub0 : Submission :=
  { title := some "Mr.", name := some "John", surname := some "Doe",
    phone_number := some "+27123456789", id_number := some "1234567890123",
    email := some "john.doe@example.com",
    notes := some "Client prefers to be contacted in the evening.",
    optindate := some "2024-07-31", preferred_time := some "18:00:00",
    offerID := some "Offer123" }

/-- The uniform envelope key set. -/
def envelopeKeys : List String :=
  ["code", "response", "info", "leadId", "processTime", "timestamp"]

/-- The numeric `code` field of a response, when present. -/
def jsonCode (r : HttpResponse) : Option Int :=
  match bodyField r "code" with
  | some (.num n) => some n
  | _ => none

/-- C1: a submission that passes all validation rules, matches no existing
row's phone_number, and whose INSERT succeeds is answered with status 201 and
a body with code 1, response "OK", empty info, leadId the generated row id,
and processTime 0; the new row carries that id. -/
theorem insert_success_response (sub : Submission) (table : Table)
    (env : DbEnv) (now : String) (id : Nat)
    (hval : validationErrors sub = [])
    (hlk : env.lookupFails = false)
    (hdup : duplicateRows table sub.phone_number = [])
    (hins : env.insertResult = some id) :
    (addClient sub table env now).fst =
      { status := 201,
        body := [("code", .num 1), ("response", .str "OK"),
                 ("info", .arr []), ("leadId", .num (Int.ofNat id)),
                 ("processTime", .num 0), ("timestamp", .str now)] } ∧
    (addClient sub table env now).snd = table ++ [mkRow sub id] ∧
    (mkRow sub id).leadId = id := by
  simp [addClient, hval, hlk, hdup, hins, mkRow]

theorem insert_success_response_witness :
    (addClient sub0 [] ⟨false, some 101⟩ "2024-07-31T12:59:15.607Z").fst =
      { status := 201,
        body := [("code", .num 1), ("response", .str "OK"),
                 ("info", .arr []), ("leadId", .num (Int.ofNat 101)),
                 ("processTime", .num 0),
                 ("timestamp", .str "2024-07-31T12:59:15.607Z")] } ∧
    (addClient sub0 [] ⟨false, some 101⟩ "2024-07-31T12:59:15.607Z").snd =
      [] ++ [mkRow sub0 101] ∧
    (mkRow sub0 101).leadId = 101 :=
  insert_success_response sub0 [] ⟨false, some 101⟩ _ 101 rfl rfl rfl rfl

end Debtreview

namespace Debtreview

/-- A submission violating seven of the nine validation rules at once. -/
def subBad : Submission :=
  { title := some "", name := none, surname := some "Dr",
    phone_number := some "123", id_number := some "12345",
    email := some "not-an-email", notes := none,
    optindate := some "2024-13-99", preferred_time := some "25:61:61",
    offerID := none }

/-- C2: a submission failing at least one validation rule is answered with
status 400, code -5, response "Validation error", the table untouched, and
an info array carrying the full error list; every failing rule contributes
its message to that list, not just the first. -/
theorem validation_failure_response (sub : Submission) (table : Table)
    (env : DbEnv) (now : String)
    (h : validationErrors sub ≠ []) :
    ((addClient sub table env now).fst.status = 400 ∧
     (addClient sub table env now).fst.body =
       [("code", .num (-5)), ("response", .str "Validation error"),
        ("info", .arr ((validationErrors sub).map .str)),
        ("leadId", .null), ("processTime", .num 0),
        ("timestamp", .str now)] ∧
     (addClient sub table env now).snd = table) ∧
    ((notEmpty sub.title = false →
        "Title is required" ∈ validationErrors sub) ∧
     (notEmpty sub.name = false →
        "Name is required" ∈ validationErrors sub) ∧
     (notEmpty sub.surname = false →
        "Surname is required" ∈ validationErrors sub) ∧
     (isMobilePhone sub.phone_number = false →
        "Invalid phone number" ∈ validationErrors sub) ∧
     (isLength13 sub.id_number = false →
        "ID number must be 13 digits" ∈ validationErrors sub) ∧
     (isEmail sub.email = false →
        "Invalid email" ∈ validationErrors sub) ∧
     (optionalValid isISO8601 sub.optindate = false →
        "Invalid opt-in date" ∈ validationErrors sub) ∧
     (optionalValid matchesTimeRegex sub.preferred_time = false →
        "Invalid preferred time format" ∈ validationErrors sub) ∧
     (optionalValid isStringVal sub.offerID = false →
        "OfferID must be a string" ∈ validationErrors sub)) := by
  have hB : (validationErrors sub).isEmpty = false := by
    cases hE : validationErrors sub with
    | nil => exact absurd hE h
    | cons a l => rfl
  constructor
  · simp [addClient, hB]
  · refine ⟨?_, ?_, ?_, ?_, ?_, ?_, ?_, ?_, ?_⟩ <;>
      (intro hf; simp [validationErrors, hf])

theorem validation_failure_response_witness :
    ((addClient subBad [] ⟨false, none⟩ "T").fst.status = 400 ∧
     (addClient subBad [] ⟨false, none⟩ "T").fst.body =
       [("code", .num (-5)), ("response", .str "Validation error"),
        ("info", .arr ((validationErrors subBad).map .str)),
        ("leadId", .null), ("processTime", .num 0),
        ("timestamp", .str "T")] ∧
     (addClient subBad [] ⟨false, none⟩ "T").snd = []) ∧
    ((notEmpty subBad.title = false →
        "Title is required" ∈ validationErrors subBad) ∧
     (notEmpty subBad.name = false →
        "Name is required" ∈ validationErrors subBad) ∧
     (notEmpty subBad.surname = false →
        "Surname is required" ∈ validationErrors subBad) ∧
     (isMobilePhone subBad.phone_number = false →
        "Invalid phone number" ∈ validationErrors subBad) ∧
     (isLength13 subBad.id_number = false →
        "ID number must be 13 digits" ∈ validationErrors subBad) ∧
     (isEmail subBad.email = false →
        "Invalid email" ∈ validationErrors subBad) ∧
     (optionalValid isISO8601 subBad.optindate = false →
        "Invalid opt-in date" ∈ validationErrors subBad) ∧
     (optionalValid matchesTimeRegex subBad.preferred_time = false →
        "Invalid preferred time format" ∈ validationErrors subBad) ∧
     (optionalValid isStringVal subBad.offerID = false →
        "OfferID must be a string" ∈ validationErrors subBad)) :=
  validation_failure_response subBad [] ⟨false, none⟩ "T" (by decide)

/-- C3: a submission passing validation whose phone_number equals that of an
existing row is answered with status 400, code -2, response "Invalid Lead",
description "Duplicate", and no row is inserted. -/
theorem duplicate_phone_response (sub : Submission) (table : Table)
    (env : DbEnv) (now : String)
    (hval : validationErrors sub = [])
    (hlk : env.lookupFails = false)
    (hdup : ∃ r ∈ table, r.phone_number = sub.phone_number) :
    (addClient sub table env now).fst =
      { status := 400,
        body := [("code", .num (-2)), ("response", .str "Invalid Lead"),
                 ("description", .str "Duplicate"),
                 ("leadId", .null), ("processTime", .num 0),
                 ("timestamp", .str now)] } ∧
    (addClient sub table env now).snd = table := by
  have hlen : (duplicateRows table sub.phone_number).length > 0 := by
    obtain ⟨r, hr, hpn⟩ := hdup
    have hmem : r ∈ duplicateRows table sub.phone_number := by
      simp [duplicateRows, List.mem_filter, hr, hpn]
    exact List.length_pos.mpr (List.ne_nil_of_mem hmem)
  simp [addClient, hval, hlk, hlen]

theorem duplicate_phone_response_witness :
    (addClient sub0 [mkRow sub0 1] ⟨false, some 2⟩ "T").fst =
      { status := 400,
        body := [("code", .num (-2)), ("response", .str "Invalid Lead"),
                 ("description", .str "Duplicate"),
                 ("leadId", .null), ("processTime", .num 0),
                 ("timestamp", .str "T")] } ∧
    (addClient sub0 [mkRow sub0 1] ⟨false, some 2⟩ "T").snd = [mkRow sub0 1] :=
  duplicate_phone_response sub0 [mkRow sub0 1] ⟨false, some 2⟩ "T" rfl rfl
    ⟨mkRow sub0 1, List.mem_singleton.mpr rfl, rfl⟩

end Debtreview

namespace Debtreview

/-- The body keys of an export outcome, when it is a JSON response. -/
def exportBodyKeys : ExportResult → Option (List String)
  | .file _ _ => none
  | .jsonResp r => some (bodyKeys r)

theorem envelope_shape_counterexample :
    ¬ (bodyKeys (addClient sub0 [mkRow sub0 1] ⟨false, some 2⟩ "T").fst =
        envelopeKeys) := by decide

/-- C4 (amended): every JSON response of either endpoint carries exactly the
envelope keys code, response, info, leadId, processTime, timestamp — except
the duplicate-phone response, which carries description in place of info,
and export success, which returns a raw file body. -/
theorem response_envelope (sub : Submission) (table : Table) (env : DbEnv)
    (now : String) :
    (bodyKeys (addClient sub table env now).fst =
      if validationErrors sub = [] ∧ env.lookupFails = false ∧
          0 < (duplicateRows table sub.phone_number).length
      then ["code", "response", "description", "leadId", "processTime",
            "timestamp"]
      else envelopeKeys) ∧
    (∀ (st : CsvWriterState) (rf cf : Bool),
      exportBodyKeys (exportClients table st rf cf now).fst = none ∨
      exportBodyKeys (exportClients table st rf cf now).fst =
        some envelopeKeys) := by
  constructor
  · cases hE : validationErrors sub with
    | cons a l => simp [addClient, hE, bodyKeys, envelopeKeys]
    | nil =>
      cases hL : env.lookupFails with
      | true => simp [addClient, hE, hL, bodyKeys, envelopeKeys, dbErrorBody]
      | false =>
        cases hD : duplicateRows table sub.phone_number with
        | cons r rs => simp [addClient, hE, hL, hD, bodyKeys]
        | nil =>
          cases hI : env.insertResult with
          | none =>
            simp [addClient, hE, hL, hD, hI, bodyKeys, envelopeKeys,
              dbErrorBody]
          | some id =>
            simp [addClient, hE, hL, hD, hI, bodyKeys, envelopeKeys]
  · intro st rf cf
    cases rf with
    | true =>
      right
      simp [exportClients, exportBodyKeys, bodyKeys, dbErrorBody, envelopeKeys]
    | false =>
      cases cf with
      | true =>
        right
        simp [exportClients, exportBodyKeys, bodyKeys, csvErrorBody,
          envelopeKeys]
      | false => left; simp [exportClients, writeRecords, exportBodyKeys]

/-- C5: every datastore failure is answered with code -100, response
"Internal error", info {error: "Database error"} and nothing more — status
500 for the duplicate-lookup and the export read, but status 400 for the
insert write. -/
theorem datastore_error_responses (sub : Submission) (table : Table)
    (env : DbEnv) (now : String)
    (hval : validationErrors sub = []) :
    (env.lookupFails = true →
      (addClient sub table env now).fst =
        { status := 500, body := dbErrorBody now }) ∧
    (env.lookupFails = false → duplicateRows table sub.phone_number = [] →
      env.insertResult = none →
      (addClient sub table env now).fst =
        { status := 400, body := dbErrorBody now }) ∧
    (∀ (st : CsvWriterState) (cf : Bool),
      (exportClients table st true cf now).fst =
        .jsonResp { status := 500, body := dbErrorBody now }) ∧
    dbErrorBody now =
      [("code", .num (-100)), ("response", .str "Internal error"),
       ("info", .obj [("error", .str "Database error")]),
       ("leadId", .null), ("processTime", .num 0),
       ("timestamp", .str now)] := by
  refine ⟨?_, ?_, ?_, rfl⟩
  · intro hL; simp [addClient, hval, hL]
  · intro hL hD hI; simp [addClient, hval, hL, hD, hI]
  · intro st cf; simp [exportClients]

theorem datastore_error_responses_witness :
    (addClient sub0 [] ⟨true, none⟩ "T").fst =
      { status := 500, body := dbErrorBody "T" } ∧
    (addClient sub0 [] ⟨false, none⟩ "T").fst =
      { status := 400, body := dbErrorBody "T" } ∧
    (exportClients [] ⟨false, ""⟩ true false "T").fst =
      .jsonResp { status := 500, body := dbErrorBody "T" } :=
  ⟨(datastore_error_responses sub0 [] ⟨true, none⟩ "T" rfl).1 rfl,
   (datastore_error_responses sub0 [] ⟨false, none⟩ "T" rfl).2.1 rfl rfl rfl,
   (datastore_error_responses sub0 [] ⟨false, none⟩ "T" rfl).2.2.1 ⟨false, ""⟩
     false⟩

/-- Evaluation of the code field when it heads the body. -/
theorem jsonCode_eval (st : Nat) (n : Int) (rest : List (String × JsonVal)) :
    jsonCode { status := st, body := ("code", .num n) :: rest } = some n := rfl

/-- C6: the insert endpoint appends exactly one row to the clients table when
it answers code 1, and leaves the table unchanged on every other path
(validation failure, duplicate, lookup error, insert error). -/
theorem insert_row_effects (sub : Submission) (table : Table) (env : DbEnv)
    (now : String) :
    (jsonCode (addClient sub table env now).fst = some 1 →
      ∃ id, env.insertResult = some id ∧
        (addClient sub table env now).snd = table ++ [mkRow sub id]) ∧
    (jsonCode (addClient sub table env now).fst ≠ some 1 →
      (addClient sub table env now).snd = table) := by
  cases hE : validationErrors sub with
  | cons a l =>
    constructor
    · intro hc
      rw [show (addClient sub table env now).fst =
            { status := 400,
              body := [("code", .num (-5)), ("response", .str "Validation error"),
                       ("info", .arr (((a :: l) : List String).map .str)),
                       ("leadId", .null), ("processTime", .num 0),
                       ("timestamp", .str now)] } from by
          simp [addClient, hE]] at hc
      rw [jsonCode_eval] at hc
      exact absurd hc (by decide)
    · intro _; simp [addClient, hE]
  | nil =>
    cases hL : env.lookupFails with
    | true =>
      constructor
      · intro hc
        rw [show (addClient sub table env now).fst =
              { status := 500, body := dbErrorBody now } from by
            simp [addClient, hE, hL]] at hc
        rw [show jsonCode { status := 500, body := dbErrorBody now } =
              some (-100) from rfl] at hc
        exact absurd hc (by decide)
      · intro _; simp [addClient, hE, hL]
    | false =>
      cases hD : duplicateRows table sub.phone_number with
      | cons r rs =>
        constructor
        · intro hc
          rw [show (addClient sub table env now).fst =
                { status := 400,
                  body := [("code", .num (-2)), ("response", .str "Invalid Lead"),
                           ("description", .str "Duplicate"),
                           ("leadId", .null), ("processTime", .num 0),
                           ("timestamp", .str now)] } from by
              simp [addClient, hE, hL, hD]] at hc
          rw [jsonCode_eval] at hc
          exact absurd hc (by decide)
        · intro _; simp [addClient, hE, hL, hD]
      | nil =>
        cases hI : env.insertResult with
        | none =>
          constructor
          · intro hc
            rw [show (addClient sub table env now).fst =
                  { status := 400, body := dbErrorBody now } from by
                simp [addClient, hE, hL, hD, hI]] at hc
            rw [show jsonCode { status := 400, body := dbErrorBody now } =
                  some (-100) from rfl] at hc
            exact absurd hc (by decide)
          · intro _; simp [addClient, hE, hL, hD, hI]
        | some id =>
          constructor
          · intro _
            exact ⟨id, rfl, by simp [addClient, hE, hL, hD, hI]⟩
          · intro hc
            exfalso
            apply hc
            rw [show (addClient sub table env now).fst =
                  { status := 201,
                    body := [("code", .num 1), ("response", .str "OK"),
                             ("info", .arr []),
                             ("leadId", .num (Int.ofNat id)),
                             ("processTime", .num 0),
                             ("timestamp", .str now)] } from by
                simp [addClient, hE, hL, hD, hI]]
            exact jsonCode_eval 201 1 _

theorem insert_row_effects_witness :
    (∃ id, (⟨false, some 7⟩ : DbEnv).insertResult = some id ∧
       (addClient sub0 [] ⟨false, some 7⟩ "T").snd = [] ++ [mkRow sub0 id]) ∧
    (addClient subBad [] ⟨false, some 7⟩ "T").snd = [] :=
  ⟨(insert_row_effects sub0 [] ⟨false, some 7⟩ "T").1 rfl,
   (insert_row_effects subBad [] ⟨false, some 7⟩ "T").2 (by decide)⟩

end Debtreview

namespace Debtreview

theorem string_append_empty (s : String) : s ++ "" = s := by
  cases s with
  | mk data =>
    show String.mk (data ++ []) = String.mk data
    rw [List.append_nil]

theorem string_empty_append (s : String) : "" ++ s = s := by
  cases s with
  | mk data => rfl

/-- Appending one final line to a concatenation of lines. -/
theorem concatLines_snoc (xs : List String) (l : String) :
    concatLines (xs ++ [l]) = concatLines xs ++ (l ++ "\n") := by
  induction xs with
  | nil => simp [concatLines, string_append_empty, string_empty_append]
  | cons x xs ih => simp [concatLines, ih, String.append_assoc]

set_option maxRecDepth 8192 in
theorem export_csv_format_counterexample :
    exportedFile
      (exportClients [mkRow sub0 1]
        (exportClients [mkRow sub0 1] ⟨false, ""⟩ false false "T").snd
        false false "T2").fst ≠
      some (specExportCsv [mkRow sub0 1]) := by decide

/-- C7 (amended): a successful export downloads `clients.csv`.  While the
shared csv-writer has not yet written (in particular on the first export),
the downloaded content is exactly the CSV the spec describes: the fixed
header line, then one data line per table row, each the comma-join of the
ten Client fields in header order with empty or absent optional fields
rendered as empty CSV fields.  Every later successful export appends the
current rows' data lines to the previously accumulated file content and
downloads that accumulated file. -/
theorem export_csv_format (table : Table) (st : CsvWriterState)
    (now : String) :
    (exportClients table st false false now).fst =
      .file "clients.csv"
        (if st.append then st.file ++ concatLines (table.map csvDataLine)
         else specExportCsv table) ∧
    specExportCsv table =
      "Title,Name,Surname,Phone Number,ID Number,Email,Notes,Opt-in Date,Preferred Time,Offer ID"
        ++ "\n" ++ concatLines (table.map csvDataLine) ∧
    (∀ r : Row, csvDataLine r = joinWith "," ((rowCells r).map stringifyField)) ∧
    (∀ r : Row, rowCells r =
      [cellValue r.title, cellValue r.name, cellValue r.surname,
       cellValue r.phone_number, cellValue r.id_number, cellValue r.email,
       cellValue r.notes, cellValue r.optindate, cellValue r.preferred_time,
       cellValue r.offerID]) ∧
    cellValue none = "" := by
  refine ⟨?_, rfl, fun _ => rfl, fun _ => rfl, rfl⟩
  cases hA : st.append <;>
    simp [exportClients, writeRecords, hA, specExportCsv, concatLines]

/-- C8: an export whose datastore read succeeds but whose CSV write fails is
answered with status 500, code -100, response "Internal error" and info
{error: "CSV writing error"}; the writer state is untouched. -/
theorem export_csv_write_failure (table : Table) (st : CsvWriterState)
    (now : String) :
    (exportClients table st false true now).fst =
      .jsonResp { status := 500, body := csvErrorBody now } ∧
    (exportClients table st false true now).snd = st ∧
    csvErrorBody now =
      [("code", .num (-100)), ("response", .str "Internal error"),
       ("info", .obj [("error", .str "CSV writing error")]),
       ("leadId", .null), ("processTime", .num 0),
       ("timestamp", .str now)] :=
  ⟨rfl, rfl, rfl⟩

/-- C9: a fully populated submission that is successfully inserted appears in
the next successful export's downloaded CSV — whatever the writer state
(fresh write or append to the accumulated file), the downloaded content
contains the new row's data line, terminated by the record delimiter, and
that row's ten cells equal the submitted values exactly. -/
theorem insert_export_round_trip (sub : Submission) (table : Table)
    (env : DbEnv) (st : CsvWriterState) (now now2 : String) (id : Nat)
    (t n sn pn idn em nt od pt off : String)
    (ht : sub.title = some t) (hn : sub.name = some n)
    (hs : sub.surname = some sn) (hp : sub.phone_number = some pn)
    (hi : sub.id_number = some idn) (he : sub.email = some em)
    (hno : sub.notes = some nt) (ho : sub.optindate = some od)
    (hpt : sub.preferred_time = some pt) (hof : sub.offerID = some off)
    (hval : validationErrors sub = [])
    (hlk : env.lookupFails = false)
    (hdup : duplicateRows table sub.phone_number = [])
    (hins : env.insertResult = some id) :
    ∃ row content,
      (addClient sub table env now).snd = table ++ [row] ∧
      rowCells row = [t, n, sn, pn, idn, em, nt, od, pt, off] ∧
      (exportClients (addClient sub table env now).snd st false false
        now2).fst = .file "clients.csv" content ∧
      ∃ pre, content = pre ++ (csvDataLine row ++ "\n") := by
  have hsnd : (addClient sub table env now).snd = table ++ [mkRow sub id] := by
    simp [addClient, hval, hlk, hdup, hins]
  refine ⟨mkRow sub id,
    (writeRecords st (table ++ [mkRow sub id])).file, hsnd, ?_, ?_, ?_⟩
  · simp [rowCells, mkRow, cellValue, ht, hn, hs, hp, hi, he, hno, ho, hpt,
      hof]
  · rw [hsnd]
    simp [exportClients]
  · cases hA : st.append with
    | true =>
      refine ⟨st.file ++ concatLines (table.map csvDataLine), ?_⟩
      simp [writeRecords, hA, List.map_append, concatLines_snoc,
        String.append_assoc]
    | false =>
      refine ⟨csvHeaderLine ++ "\n" ++ concatLines (table.map csvDataLine),
        ?_⟩
      simp [writeRecords, hA, List.map_append, concatLines_snoc,
        String.append_assoc]

theorem insert_export_round_trip_witness :
    ∃ row content,
      (addClient sub0 [] ⟨false, some 101⟩ "T").snd = [] ++ [row] ∧
      rowCells row = ["Mr.", "John", "Doe", "+27123456789", "1234567890123",
        "john.doe@example.com",
        "Client prefers to be contacted in the evening.",
        "2024-07-31", "18:00:00", "Offer123"] ∧
      (exportClients (addClient sub0 [] ⟨false, some 101⟩ "T").snd
        ⟨true, "PRIOR\n"⟩ false false "T2").fst =
        .file "clients.csv" content ∧
      ∃ pre, content = pre ++ (csvDataLine row ++ "\n") :=
  insert_export_round_trip sub0 [] ⟨false, some 101⟩ ⟨true, "PRIOR\n"⟩ "T"
    "T2" 101
    "Mr." "John" "Doe" "+27123456789" "1234567890123" "john.doe@example.com"
    "Client prefers to be contacted in the evening." "2024-07-31" "18:00:00"
    "Offer123" rfl rfl rfl rfl rfl rfl rfl rfl rfl rfl rfl rfl rfl rfl

/-- The example submission with a 13-character, non-numeric id_number. -/
def sub10 : Submission := { sub0 with id_number := some "ABCDEFGHIJKLM" }

/-- Membership in a conditionally empty singleton forces equality. -/
theorem mem_ite_singleton {a m : String} {c : Prop} [Decidable c]
    (h : a ∈ if c then ([] : List String) else [m]) : a = m := by
  split at h
  · simp at h
  · simpa using h

/-- C10: the id_number rule checks only the length — any string of exactly
13 characters passes it, digits or not, and contributes no validation
error. -/
theorem id_number_length_only (sub : Submission) (s : String)
    (hid : sub.id_number = some s) (hlen : s.length = 13) :
    isLength13 sub.id_number = true ∧
    "ID number must be 13 digits" ∉ validationErrors sub := by
  have hdl : s.data.length = 13 := hlen
  have hL : isLength13 sub.id_number = true := by
    simp [isLength13, hid, hdl]
  refine ⟨hL, ?_⟩
  intro hmem
  simp only [validationErrors, hL, if_true, List.mem_append] at hmem
  rcases hmem with ((((((((h | h) | h) | h) | h) | h) | h) | h) | h) <;>
    first
      | exact absurd (mem_ite_singleton h) (by decide)
      | simp at h

theorem id_number_length_only_witness :
    isLength13 sub10.id_number = true ∧
    "ID number must be 13 digits" ∉ validationErrors sub10 :=
  id_number_length_only sub10 "ABCDEFGHIJKLM" rfl rfl

end Debtreview
